import Mathlib

/-!
# Verification of the Square-Hacks agent orchestration core

Shallow embedding of the multi-agent surge-prediction workflow found in
`backend/agents/` (`__init__.py`, `agent_state.py`, `sentinel_agent.py`,
`orchestrator_agent.py`, `action_agents.py`), together with proofs about
the properties stated in the repository specification.

Python's dynamically typed values are modelled by `PyVal`; Python `dict`s
by insertion-ordered association lists (`PyDict`); numbers uniformly by `ℚ`
(every numeric literal the workflow manipulates is a small decimal, exactly
representable); raised exceptions by `Except String`.  Calls to external
services (the generative model, the Prophet forecaster, the database) are
inputs of the embedded functions: each such call site takes the call's
outcome as a parameter, `Except.error` standing for a raised exception and,
where the code immediately `json.loads`es the response, `Option PyVal`
standing for the parse result (`none` = the parser raised).
-/

set_option autoImplicit false

namespace SquareHacks

/-- A Python runtime value, as far as the orchestration core manipulates
them: strings, numbers (JSON numbers, modelled as `ℚ`), booleans, `None`,
lists, and insertion-ordered dictionaries with string keys. -/
inductive PyVal where
  | str (s : String)
  | num (q : ℚ)
  | bool (b : Bool)
  | none
  | list (xs : List PyVal)
  | dict (fields : List (String × PyVal))

/-- Python `v == s` for a string literal `s`: true exactly when `v` is the
string `s` (a value of any other runtime type never equals a `str`).  This
is how the code's membership tests `x in ["high", "critical"]` and
comparisons `x == "low"` evaluate. -/
def PyVal.isStr (v : PyVal) (s : String) : Bool :=
  match v with
  | .str t => t = s
  | _ => false

/-- A Python `dict` with string keys: an insertion-ordered association list
with distinct keys maintained by `dictSet`. -/
abbrev PyDict := List (String × PyVal)

/-- Python `d.get(k)` / `d[k]` lookup: the value stored at `k`, if any. -/
def dictGet (d : PyDict) (k : String) : Option PyVal :=
  (d.find? (fun p => p.1 = k)).map (fun p => p.2)

/-- Python `d[k] = v` dict assignment on an insertion-ordered association
list — replace the value at the key's existing position, or append a new
binding at the end.  (The first occurrence of a key is the authoritative
one throughout, matching `dictGet`.) -/
def dictSet (d : PyDict) (k : String) (v : PyVal) : PyDict :=
  match d with
  | [] => [(k, v)]
  | (k1, v1) :: rest =>
      if k1 = k then (k, v) :: rest else (k1, v1) :: dictSet rest k v

/-- Python `d[k]` subscription: `KeyError` when the key is absent. -/
def pySubscript (d : PyDict) (k : String) : Except String PyVal :=
  match dictGet d k with
  | some v => .ok v
  | Option.none => .error ("KeyError: " ++ k)

/-- Python `s.rstrip('%')`: remove every trailing `%` character. -/
def rstripPercent (s : String) : String :=
  ⟨(s.data.reverse.dropWhile (fun c => c = '%')).reverse⟩

/-- Value of a list of decimal digit characters. -/
def natOfDigits (cs : List Char) : Nat :=
  cs.foldl (fun n c => n * 10 + (c.toNat - 48)) 0

/-- Python `float(s)` restricted to plain decimal literals with an optional
sign and fraction part — the only shapes the blender's percentage strings
take.  `none` models the `ValueError` that `float` raises otherwise. -/
def pyFloat (s : String) : Option ℚ :=
  let cs := ((s.data.dropWhile Char.isWhitespace).reverse.dropWhile
      Char.isWhitespace).reverse
  let signed : ℚ × List Char :=
    match cs with
    | c :: rest =>
        if c = '-' then (-1, rest) else if c = '+' then (1, rest) else (1, cs)
    | [] => (1, cs)
  let sign := signed.1
  let body := signed.2
  let intPart := body.takeWhile Char.isDigit
  let rest := body.dropWhile Char.isDigit
  match rest with
  | [] =>
      if intPart.isEmpty then Option.none
      else some (sign * (natOfDigits intPart : ℚ))
  | c :: frac =>
      if c = '.' && frac.all Char.isDigit && !(intPart.isEmpty && frac.isEmpty) then
        some (sign * ((natOfDigits intPart : ℚ) +
          (natOfDigits frac : ℚ) / ((10 : ℚ) ^ frac.length)))
      else Option.none

/-- The quantitative forecaster's result, as produced by
`SentinelAgent._run_time_series_forecast`: the predicted increase
percentage plus the raw Prophet tail rows (opaque to the blender). -/
structure TSForecast where
  predicted_increase_pct : ℚ
  forecast_data : PyVal := .none

/-- The forecast attached verbatim under `statistical_forecast`, with the
dict shape `_run_time_series_forecast` returns. -/
def TSForecast.toPyVal (ts : TSForecast) : PyVal :=
  .dict [("predicted_increase_pct", .num ts.predicted_increase_pct),
         ("forecast_data", ts.forecast_data)]

/-- The conservative fallback record substituted when `json.loads` raises on
the model's response (`_combine_predictions`, `except` branch). -/
def defaultRecord : PyDict :=
  [("surge_likelihood", .str "medium"),
   ("confidence_score", .num 60),
   ("reasoning", .str "Analysis in progress")]

/-- The body of `_combine_predictions` after the `try`/`except` has fixed
`llm_data`: read `predicted_patient_increase` (default `"20"`), strip `%`,
`float` it, apply the agreement bonus when the absolute difference with the
quantitative forecast is below 10, and attach the forecast verbatim.
Failure modes — `.rstrip` on a non-string, `float` on a non-numeric string,
a missing or non-numeric `confidence_score` in the bonus branch — are
outside the `try` and raise. -/
def combineCore (llmData : PyDict) (ts : TSForecast) : Except String PyDict := do
  let incStr : String ←
    match dictGet llmData "predicted_patient_increase" with
    | some (.str s) => pure s
    | some _ => throw "AttributeError: rstrip"
    | Option.none => pure "20"
  let incVal : ℚ ←
    match pyFloat (rstripPercent incStr) with
    | some q => pure q
    | Option.none => throw "ValueError: float"
  let adjusted : PyDict ←
    if |incVal - ts.predicted_increase_pct| < 10 then
      match dictGet llmData "confidence_score" with
      | some (.num c) =>
          pure (dictSet llmData "confidence_score" (.num (min (c + 15) 95)))
      | some _ => throw "TypeError: unsupported operand"
      | Option.none => throw "KeyError: confidence_score"
    else pure llmData
  pure (dictSet adjusted "statistical_forecast" ts.toPyVal)

/-- Embedding of `SentinelAgent._combine_predictions`.  `llmParse` is the result of
`json.loads(llm_pred.content)` (`none` = the parser raised, which the bare
`except:` converts to `defaultRecord`); a parse result that is not an
object makes the subsequent `.get` raise. -/
def combinePredictions (llmParse : Option PyVal) (ts : TSForecast) :
    Except String PyDict := do
  let llmData : PyDict ←
    match llmParse with
    | some (.dict d) => pure d
    | some _ => throw "AttributeError: get"
    | Option.none => pure defaultRecord
  combineCore llmData ts

/-- The record the blender works on after the `try`: the parsed model
response when it is a JSON object, the fallback `defaultRecord` when the
parse raised.  (A parse result that is not an object makes the blender
raise before ever using it; this function is only consulted under a
success hypothesis.) -/
def effectiveLLMData (llmParse : Option PyVal) : PyDict :=
  match llmParse with
  | some (.dict d) => d
  | some _ => []
  | Option.none => defaultRecord

/-- The qualitative increase percentage the agreement test uses for a
given working record: the parsed `predicted_patient_increase` string, with
`"20"` substituted when the field is absent; `none` when the blender would
raise instead. -/
def effectiveIncreaseOf (d : PyDict) : Option ℚ :=
  match dictGet d "predicted_patient_increase" with
  | some (.str s) => pyFloat (rstripPercent s)
  | some _ => Option.none
  | Option.none => pyFloat (rstripPercent "20")

/-- The qualitative increase percentage the agreement test uses. -/
def effectiveIncrease (llmParse : Option PyVal) : Option ℚ :=
  effectiveIncreaseOf (effectiveLLMData llmParse)

/-- Whether the agreement-bonus branch of `_combine_predictions` fires for
the given inputs. -/
def bonusApplied (llmParse : Option PyVal) (ts : TSForecast) : Bool :=
  match effectiveIncrease llmParse with
  | some q => |q - ts.predicted_increase_pct| < 10
  | Option.none => false

/-- The `confidence_score` carried by a successful blend, when numeric. -/
def blendedConfidence (llmParse : Option PyVal) (ts : TSForecast) : Option ℚ :=
  match combinePredictions llmParse ts with
  | .ok d =>
    match dictGet d "confidence_score" with
    | some (.num q) => some q
    | _ => Option.none
  | .error _ => Option.none

/-- Python `str()` as the sentinel's f-string applies it: exact for strings
(the shape the model contract produces for `surge_likelihood`); other
values are rendered by a best-effort form on which no theorem depends. -/
def pyStr : PyVal → String
  | .str s => s
  | .num q => toString q
  | .bool b => if b then "True" else "False"
  | .none => "None"
  | .list _ => "[...]"
  | .dict _ => "\x7b...\x7d"

/-- The `AgentState` TypedDict of `agent_state.py`.  Fields annotated
`Annotated[..., operator.add]` there (`recommendations`, `messages`,
`reasoning_chain`) are accumulation channels; the rest are last-value
channels.  `action_results`, written by the action node and listed by the
specification's data model, is carried as a last-value field.  The runtime
stores whatever the model supplied for `confidence_score`, so it is a
`PyVal` here despite the `int` annotation. -/
structure AgentState where
  current_weather : PyDict := []
  current_aqi : ℤ := 0
  upcoming_events : List PyVal := []
  social_media_sentiment : PyDict := []
  bed_availability : PyDict := []
  staff_availability : PyDict := []
  inventory_levels : PyDict := []
  current_patient_queue : List PyVal := []
  surge_prediction : PyDict := []
  confidence_score : PyVal := .num 0
  recommendations : List PyVal := []
  messages : List String := []
  reasoning_chain : List PyVal := []
  current_agent : String := ""
  next_action : String := ""
  action_results : List PyVal := []

/-- A stage's partial update: the keys of the dict a node hands back for
merging.  `none` / `[]` stands for "key not supplied". -/
structure StateUpdate where
  surge_prediction : Option PyDict := Option.none
  confidence_score : Option PyVal := Option.none
  recommendations : List PyVal := []
  messages : List String := []
  reasoning_chain : List PyVal := []
  current_agent : Option String := Option.none
  next_action : Option String := Option.none
  action_results : Option (List PyVal) := Option.none

/-- LangGraph's per-channel reducers applied to a node's update: the three
`operator.add` channels concatenate (old sequence ++ new entries), every
other supplied key overwrites.  The nodes return the whole mutated state
dict; we model each node as contributing exactly the entries it newly
supplies to the accumulation channels (re-submitting already accumulated
entries, which `operator.add` would duplicate, only lengthens them further
and no property proved here is sensitive to it). -/
def AgentState.merge (s : AgentState) (u : StateUpdate) : AgentState :=
  { s with
    surge_prediction := u.surge_prediction.getD s.surge_prediction
    confidence_score := u.confidence_score.getD s.confidence_score
    recommendations := s.recommendations ++ u.recommendations
    messages := s.messages ++ u.messages
    reasoning_chain := s.reasoning_chain ++ u.reasoning_chain
    current_agent := u.current_agent.getD s.current_agent
    next_action := u.next_action.getD s.next_action
    action_results := u.action_results.getD s.action_results }

/-- The three specialized sub-agent handlers as the dispatcher calls them:
each maps a recommendation to the structured artifact its drafting call
produces, `Except.error` standing for a raised exception anywhere in the
handler (the logistics query, the model call, or the uncaught `json.loads`
of the reply). -/
structure Handlers where
  staffPlan : PyVal → Except String PyVal
  supplyOrder : PyVal → Except String PyVal
  advisory : PyVal → Except String PyVal

/-- Outcomes of every external call one workflow run performs. -/
structure Env where
  /-- Outcome of `chain.ainvoke` in `monitor_and_predict` followed by
  `json.loads(llm_pred.content)`: `.error` = the model call raised;
  `.ok none` = it returned text that is not parseable JSON;
  `.ok (some v)` = the parsed response. -/
  sentinelLLM : Except String (Option PyVal)
  /-- Result of `_run_time_series_forecast` (Prophet on the synthetic series). -/
  tsForecast : TSForecast
  /-- Outcome of `agent_executor.ainvoke(...)["output"]` in `orchestrate`. -/
  orchLLM : Except String String
  handlers : Handlers

/-- Embedding of `OrchestratorAgent._parse_recommendations`: the source ignores the model
output and returns this fixed list. -/
def parseRecommendations (output : String) : List PyVal :=
  [.dict [("type", .str "staff_reallocation"),
          ("title", .str "Move 5 nurses from OPD to ER"),
          ("priority", .str "high"),
          ("estimated_cost", .num (-5000)),
          ("reasoning", .str "ER surge predicted in 12 hours")],
   .dict [("type", .str "supply_order"),
          ("title", .str "Order 20 O2 cylinders (emergency)"),
          ("priority", .str "critical"),
          ("estimated_cost", .num (-16000)),
          ("reasoning", .str "Current stock at 90%, surge will deplete quickly")],
   .dict [("type", .str "patient_advisory"),
          ("title", .str "SMS Alert: High wait times expected"),
          ("priority", .str "medium"),
          ("estimated_cost", .num 0),
          ("reasoning", .str "Inform patients to consider teleconsult alternatives")]]

/-- Embedding of `SentinelAgent.monitor_and_predict`.  Nothing in it catches exceptions:
a raising model call, and every subscription on the blended record, raises
through to the caller.  The returned dict reads `confidence_score`,
`surge_likelihood` and `reasoning` off the blended record by subscription,
in that evaluation order. -/
def monitorAndPredict (env : Env) (s : AgentState) : Except String StateUpdate := do
  let llmParse ← env.sentinelLLM
  let combined ← combinePredictions llmParse env.tsForecast
  let conf ← pySubscript combined "confidence_score"
  let sl ← pySubscript combined "surge_likelihood"
  let reasoning ← pySubscript combined "reasoning"
  pure { surge_prediction := some combined,
         confidence_score := some conf,
         messages := ["[Sentinel] Surge prediction: " ++ pyStr sl],
         reasoning_chain := [reasoning],
         current_agent := some "sentinel",
         next_action := some (if sl.isStr "high" || sl.isStr "critical"
                              then "escalate_to_orchestrator" else "monitor") }

/-- Embedding of `OrchestratorAgent.orchestrate`: returns the no-action update when the
predicted likelihood equals `"low"`, otherwise reads the prediction's
`confidence_score` into the prompt, runs the ReAct executor and packages
the fixed recommendation list. -/
def orchestrate (env : Env) (s : AgentState) : Except String StateUpdate := do
  let sl ← pySubscript s.surge_prediction "surge_likelihood"
  if sl.isStr "low" then
    pure { messages := ["[Orchestrator] Situation normal, no action required"],
           next_action := some "continue_monitoring" }
  else do
    let _ ← pySubscript s.surge_prediction "confidence_score"
    let output ← env.orchLLM
    let recs := parseRecommendations output
    pure { recommendations := recs,
           messages := ["[Orchestrator] Generated " ++ toString recs.length
                        ++ " recommendations"],
           reasoning_chain := [.str output],
           current_agent := some "orchestrator",
           next_action := some "dispatch_action_agents" }

/-- Embedding of `ActionAgentOrchestrator.execute_recommendations`: route each item by
`rec['type']` to its handler and accumulate `{recommendation, artifact}`
entries.  A recommendation without a `'type'` key (or that is not a dict)
raises; a recognized item's handler failure raises through, aborting the
remaining items; an unrecognized type matches no branch and contributes
nothing. -/
def executeRecommendations (H : Handlers) : List PyVal → Except String (List PyVal)
  | [] => pure []
  | r :: rest => do
    let t ← match r with
      | .dict d => pySubscript d "type"
      | _ => throw "TypeError: not subscriptable"
    let entry : Option PyVal ←
      if t.isStr "staff_reallocation" then do
        let plan ← H.staffPlan r
        pure (some (.dict [("recommendation", r), ("action_plan", plan)]))
      else if t.isStr "supply_order" then do
        let po ← H.supplyOrder r
        pure (some (.dict [("recommendation", r), ("purchase_order", po)]))
      else if t.isStr "patient_advisory" then do
        let adv ← H.advisory r
        pure (some (.dict [("recommendation", r), ("advisory", adv)]))
      else
        pure Option.none
    let restResults ← executeRecommendations H rest
    pure (match entry with | some e => e :: restResults | Option.none => restResults)

/-- Embedding of `ArogyaSwarmGraph._action_node`: run the dispatcher over the accumulated
recommendations, append the count message and store the results. -/
def actionNode (env : Env) (s : AgentState) : Except String StateUpdate := do
  let results ← executeRecommendations env.handlers s.recommendations
  pure { messages := ["[ActionAgents] Executed " ++ toString results.length ++ " actions"],
         action_results := some results }

/-- Embedding of `ArogyaSwarmGraph._monitor_node`: append the monitoring message. -/
def monitorUpdate : StateUpdate :=
  { messages := ["[System] Continuing normal monitoring"] }

/-- Embedding of `ArogyaSwarmGraph._should_escalate`: read
`state['surge_prediction'].get('surge_likelihood', 'low')` and test
membership in `['high', 'critical']`. -/
def shouldEscalate (s : AgentState) : String :=
  let sl := (dictGet s.surge_prediction "surge_likelihood").getD (.str "low")
  if sl.isStr "high" || sl.isStr "critical" then "escalate" else "monitor"

/-- The four graph nodes registered by `_build_graph`. -/
inductive Node where
  | sentinel
  | orchestrator
  | action_agents
  | monitor
  deriving DecidableEq, Repr

/-- An edge target: another node, or the terminal `END`. -/
inductive Target where
  | node (n : Node)
  | END
  deriving DecidableEq, Repr

/-- The edges of `_build_graph`: a conditional edge out of `sentinel`
labelled by `_should_escalate`, unconditional edges
`orchestrator → action_agents`, `action_agents → END`, `monitor → END`.
The router is evaluated on the state *after* the node's update has been
merged. -/
def graphEdge (n : Node) (s : AgentState) : Target :=
  match n with
  | .sentinel => if shouldEscalate s = "escalate"
                 then .node .orchestrator else .node .monitor
  | .orchestrator => .node .action_agents
  | .action_agents => .END
  | .monitor => .END

/-- One node execution: run the node's body and merge its update. -/
def nodeStep (env : Env) (n : Node) (s : AgentState) : Except String AgentState := do
  let u ← match n with
    | .sentinel => monitorAndPredict env s
    | .orchestrator => orchestrate env s
    | .action_agents => actionNode env s
    | .monitor => pure monitorUpdate
  pure (s.merge u)

/-- Drive the graph from a node until `END`, collecting the visited nodes.
The fuel only bounds the driver loop; the graph is acyclic with longest
path `sentinel → orchestrator → action_agents`, so fuel `4` is never
exhausted. -/
def runFrom : Nat → Env → Node → AgentState → Except String (AgentState × List Node)
  | 0, _, _, _ => .error "GraphRecursionError"
  | fuel + 1, env, n, s => do
    let s' ← nodeStep env n s
    match graphEdge n s' with
    | .END => pure (s', [n])
    | .node m => do
      let r ← runFrom fuel env m s'
      pure (r.1, n :: r.2)

/-- Embedding of `ArogyaSwarmGraph.run`: execute the compiled graph from the `sentinel`
entry point to a terminal state, returning the final state and the visited
path. -/
def run (env : Env) (s : AgentState) : Except String (AgentState × List Node) :=
  runFrom 4 env .sentinel s

/-- Embedding of `StaffReallocationAgent.draft_reallocation_plan`.  The prompt
interpolates `recommendation['title']`, `recommendation['reasoning']` and
the serialized staff mapping and sends it to the model; the reply's content
is `json.loads`ed and returned verbatim — the fatigue and staffing-ratio
rules appear only as prompt text, never as a check on the parsed plan.
`llmResult` is the model call's outcome: `.error` = the call raised,
`.ok none` = the reply was not parseable JSON (`json.loads` raises,
uncaught), `.ok (some plan)` = the parsed reply. -/
def draftReallocationPlan (recommendation : PyDict) (current_staff : PyDict)
    (llmResult : Except String (Option PyVal)) : Except String PyVal := do
  let _ ← pySubscript recommendation "title"
  let _ ← pySubscript recommendation "reasoning"
  let _ := current_staff
  let reply ← llmResult
  match reply with
  | some plan => pure plan
  | Option.none => throw "json.decoder.JSONDecodeError"

/-- The staff names a reallocation plan artifact lists under
`staff_to_move`. -/
def staffToMoveNames (plan : PyVal) : List String :=
  match plan with
  | .dict d =>
    match dictGet d "staff_to_move" with
    | some (.list entries) =>
        entries.filterMap (fun e =>
          match e with
          | .dict ed =>
            match dictGet ed "name" with
            | some (.str n) => some n
            | _ => Option.none
          | _ => Option.none)
    | _ => []
  | _ => []

/-- The `fatigue_score` a staff mapping records for a named member (the
specification scenario's shape: name ↦ record with a `fatigue_score`
field). -/
def fatigueScoreOf (staff : PyDict) (name : String) : Option ℚ :=
  match dictGet staff name with
  | some (.dict r) =>
    match dictGet r "fatigue_score" with
    | some (.num q) => some q
    | _ => Option.none
  | _ => Option.none

/-- The `implementation_notes` field of a plan artifact, if any. -/
def implementationNotes (plan : PyVal) : Option PyVal :=
  match plan with
  | .dict d => dictGet d "implementation_notes"
  | _ => Option.none

/-! ## Helper lemmas -/

theorem dictGet_nil (k : String) : dictGet [] k = Option.none := rfl

theorem dictGet_cons (k1 : String) (v1 : PyVal) (rest : PyDict) (k : String) :
    dictGet ((k1, v1) :: rest) k = if k1 = k then some v1 else dictGet rest k := by
  by_cases h : k1 = k <;> simp [dictGet, List.find?, h]

theorem dictGet_dictSet_self (d : PyDict) (k : String) (v : PyVal) :
    dictGet (dictSet d k v) k = some v := by
  induction d with
  | nil => simp [dictSet, dictGet_cons, dictGet_nil]
  | cons p rest ih =>
    obtain ⟨k1, v1⟩ := p
    by_cases h : k1 = k
    · simp [dictSet, h, dictGet_cons]
    · simp [dictSet, h, dictGet_cons, ih]

theorem dictGet_dictSet_ne (d : PyDict) (k k' : String) (v : PyVal)
    (h : k ≠ k') : dictGet (dictSet d k v) k' = dictGet d k' := by
  induction d with
  | nil => simp [dictSet, dictGet_cons, dictGet_nil, h]
  | cons p rest ih =>
    obtain ⟨k1, v1⟩ := p
    by_cases h1 : k1 = k
    · subst h1
      simp [dictSet, dictGet_cons, h]
    · simp [dictSet, h1, dictGet_cons, ih]

theorem exceptBind_ok_iff {ε α β : Type} {x : Except ε α} {f : α → Except ε β}
    {b : β} : (x >>= f) = .ok b ↔ ∃ a, x = .ok a ∧ f a = .ok b := by
  cases x with
  | error e => simp [Bind.bind, Except.bind]
  | ok a => simp [Bind.bind, Except.bind]

theorem exceptBind_error {ε α β : Type} {e : ε} {f : α → Except ε β} :
    ((Except.error e : Except ε α) >>= f) = .error e := rfl

theorem pySubscript_ok_iff (d : PyDict) (k : String) (v : PyVal) :
    pySubscript d k = .ok v ↔ dictGet d k = some v := by
  unfold pySubscript
  cases h : dictGet d k <;> simp

/-- Value of `combineCore` on a record whose effective increase parses and agrees
with the quantitative forecast, and whose base confidence is numeric. -/
theorem combineCore_agree (d : PyDict) (ts : TSForecast) (q c : ℚ)
    (hq : effectiveIncreaseOf d = some q)
    (hlt : |q - ts.predicted_increase_pct| < 10)
    (hc : dictGet d "confidence_score" = some (.num c)) :
    combineCore d ts =
      .ok (dictSet (dictSet d "confidence_score" (.num (min (c + 15) 95)))
            "statistical_forecast" ts.toPyVal) := by
  have hq' := hq
  unfold effectiveIncreaseOf at hq'
  unfold combineCore
  cases hgi : dictGet d "predicted_patient_increase" with
  | none =>
      rw [hgi] at hq'
      have hq2 : pyFloat (rstripPercent "20") = some q := hq'
      simp only [hgi, pure_bind, hq2, if_pos hlt, hc]
      rfl
  | some v =>
      rw [hgi] at hq'
      cases v with
      | str s =>
          have hq2 : pyFloat (rstripPercent s) = some q := hq'
          simp only [hgi, pure_bind, hq2, if_pos hlt, hc]
          rfl
      | num n => exact absurd hq' (by simp)
      | bool b => exact absurd hq' (by simp)
      | none => exact absurd hq' (by simp)
      | list xs => exact absurd hq' (by simp)
      | dict fs => exact absurd hq' (by simp)

/-- Value of `combineCore` on a record whose effective increase parses but does not
agree with the quantitative forecast: the record passes through with only
the forecast attached. -/
theorem combineCore_disagree (d : PyDict) (ts : TSForecast) (q : ℚ)
    (hq : effectiveIncreaseOf d = some q)
    (hge : ¬ |q - ts.predicted_increase_pct| < 10) :
    combineCore d ts = .ok (dictSet d "statistical_forecast" ts.toPyVal) := by
  have hq' := hq
  unfold effectiveIncreaseOf at hq'
  unfold combineCore
  cases hgi : dictGet d "predicted_patient_increase" with
  | none =>
      rw [hgi] at hq'
      have hq2 : pyFloat (rstripPercent "20") = some q := hq'
      simp only [hgi, pure_bind, hq2, if_neg hge]
      rfl
  | some v =>
      rw [hgi] at hq'
      cases v with
      | str s =>
          have hq2 : pyFloat (rstripPercent s) = some q := hq'
          simp only [hgi, pure_bind, hq2, if_neg hge]
          rfl
      | num n => exact absurd hq' (by simp)
      | bool b => exact absurd hq' (by simp)
      | none => exact absurd hq' (by simp)
      | list xs => exact absurd hq' (by simp)
      | dict fs => exact absurd hq' (by simp)

/-- When the effective increase does not parse, `combineCore` raises. -/
theorem combineCore_error_of_none (d : PyDict) (ts : TSForecast)
    (hq : effectiveIncreaseOf d = Option.none) :
    ∃ e, combineCore d ts = .error e := by
  have hq' := hq
  unfold effectiveIncreaseOf at hq'
  unfold combineCore
  cases hgi : dictGet d "predicted_patient_increase" with
  | none =>
      rw [hgi] at hq'
      have hq2 : pyFloat (rstripPercent "20") = Option.none := hq'
      exact absurd hq2 (by decide)
  | some v =>
      rw [hgi] at hq'
      cases v with
      | str s =>
          have hq2 : pyFloat (rstripPercent s) = Option.none := hq'
          refine ⟨"ValueError: float", ?_⟩
          simp only [hgi, pure_bind, hq2]
          rfl
      | num n => exact ⟨"AttributeError: rstrip", by simp only [hgi]; rfl⟩
      | bool b => exact ⟨"AttributeError: rstrip", by simp only [hgi]; rfl⟩
      | none => exact ⟨"AttributeError: rstrip", by simp only [hgi]; rfl⟩
      | list xs => exact ⟨"AttributeError: rstrip", by simp only [hgi]; rfl⟩
      | dict fs => exact ⟨"AttributeError: rstrip", by simp only [hgi]; rfl⟩

theorem combinePredictions_dict (d : PyDict) (ts : TSForecast) :
    combinePredictions (some (.dict d)) ts = combineCore d ts := rfl

unseal Rat.add Rat.mul Rat.sub in
theorem pyFloat_twenty : pyFloat (rstripPercent "20") = some 20 := by decide

theorem combinePredictions_none (ts : TSForecast) :
    combinePredictions Option.none ts = combineCore defaultRecord ts := rfl

/-- With the agreement test passing and the base confidence missing,
`combineCore` raises `KeyError`. -/
theorem combineCore_error_agree_missing (d : PyDict) (ts : TSForecast) (v : ℚ)
    (hq : effectiveIncreaseOf d = some v)
    (hlt : |v - ts.predicted_increase_pct| < 10)
    (hc : dictGet d "confidence_score" = Option.none) :
    combineCore d ts = .error "KeyError: confidence_score" := by
  have hq' := hq
  unfold effectiveIncreaseOf at hq'
  unfold combineCore
  cases hgi : dictGet d "predicted_patient_increase" with
  | none =>
      rw [hgi] at hq'
      have hq2 : pyFloat (rstripPercent "20") = some v := hq'
      simp only [hgi, pure_bind, hq2, if_pos hlt, hc]
      rfl
  | some w =>
      rw [hgi] at hq'
      cases w with
      | str s =>
          have hq2 : pyFloat (rstripPercent s) = some v := hq'
          simp only [hgi, pure_bind, hq2, if_pos hlt, hc]
          rfl
      | num n => exact absurd hq' (by simp)
      | bool b => exact absurd hq' (by simp)
      | none => exact absurd hq' (by simp)
      | list xs => exact absurd hq' (by simp)
      | dict fs => exact absurd hq' (by simp)

/-- With the agreement test passing and a non-numeric base confidence,
`combineCore` raises `TypeError`. -/
theorem combineCore_error_agree_nonnum (d : PyDict) (ts : TSForecast) (v : ℚ)
    (w : PyVal) (hq : effectiveIncreaseOf d = some v)
    (hlt : |v - ts.predicted_increase_pct| < 10)
    (hc : dictGet d "confidence_score" = some w) (hw : ∀ x, w ≠ .num x) :
    combineCore d ts = .error "TypeError: unsupported operand" := by
  have hq' := hq
  unfold effectiveIncreaseOf at hq'
  unfold combineCore
  cases hgi : dictGet d "predicted_patient_increase" with
  | none =>
      rw [hgi] at hq'
      have hq2 : pyFloat (rstripPercent "20") = some v := hq'
      simp only [hgi, pure_bind, hq2, if_pos hlt, hc]
      cases w with
      | num x => exact absurd rfl (hw x)
      | str s => rfl
      | bool b => rfl
      | none => rfl
      | list xs => rfl
      | dict fs => rfl
  | some u =>
      rw [hgi] at hq'
      cases u with
      | str s =>
          have hq2 : pyFloat (rstripPercent s) = some v := hq'
          simp only [hgi, pure_bind, hq2, if_pos hlt, hc]
          cases w with
          | num x => exact absurd rfl (hw x)
          | str s2 => rfl
          | bool b => rfl
          | none => rfl
          | list xs => rfl
          | dict fs => rfl
      | num n => exact absurd hq' (by simp)
      | bool b => exact absurd hq' (by simp)
      | none => exact absurd hq' (by simp)
      | list xs => exact absurd hq' (by simp)
      | dict fs => exact absurd hq' (by simp)

/-! ## Claim C5: the agreement bonus -/

/-- The qualitative record of specification Scenario C. -/
def scenarioCRecord : PyDict :=
  [("surge_likelihood", .str "high"),
   ("confidence_score", .num 70),
   ("predicted_patient_increase", .str "22%"),
   ("reasoning", .str "High pollution and festival load")]

/-- The quantitative forecast of specification Scenario C. -/
def scenarioCForecast : TSForecast := { predicted_increase_pct := 18 }

/-- C5: whenever the parsed qualitative increase and the quantitative
forecast differ by less than 10 percentage points, the blender sets the
confidence to exactly `min (base + 15) 95` — the +15 agreement bonus capped
at 95. -/
theorem agreement_bonus_plus_fifteen (d : PyDict) (ts : TSForecast)
    (s : String) (q c : ℚ)
    (hinc : dictGet d "predicted_patient_increase" = some (.str s))
    (hparse : pyFloat (rstripPercent s) = some q)
    (hconf : dictGet d "confidence_score" = some (.num c))
    (hagree : |q - ts.predicted_increase_pct| < 10) :
    blendedConfidence (some (.dict d)) ts = some (min (c + 15) 95) := by
  have heq : effectiveIncreaseOf d = some q := by
    unfold effectiveIncreaseOf
    rw [hinc]
    exact hparse
  unfold blendedConfidence
  rw [combinePredictions_dict, combineCore_agree d ts q c heq hagree hconf]
  have h1 : dictGet (dictSet (dictSet d "confidence_score"
        (PyVal.num (min (c + 15) 95))) "statistical_forecast" ts.toPyVal)
      "confidence_score" = some (PyVal.num (min (c + 15) 95)) := by
    rw [dictGet_dictSet_ne _ _ _ _ (by decide), dictGet_dictSet_self]
  simp only [h1]

unseal Rat.add Rat.mul Rat.sub in
/-- C5 witness — Scenario C: qualitative `"22%"` against quantitative 18.0
with base confidence 70 blends to confidence 85. -/
theorem agreement_bonus_plus_fifteen_witness :
    blendedConfidence (some (.dict scenarioCRecord)) scenarioCForecast = some 85 := by
  have h := agreement_bonus_plus_fifteen scenarioCRecord scenarioCForecast
    "22%" 22 70 (by rfl) (by decide) (by rfl)
    (by show |(22 : ℚ) - 18| < 10; norm_num)
  have hm : min ((70 : ℚ) + 15) 95 = 85 := by norm_num
  rw [h, hm]

/-! ## Claim C10: the phantom default increase of 20 -/

/-- C10: when the model reply parses but lacks `predicted_patient_increase`,
the blender substitutes the string `"20"`, so the +15 bonus fires exactly
when the quantitative forecast is within 10 points of 20 — a value the
model never produced. -/
theorem missing_increase_default_twenty (d : PyDict) (ts : TSForecast) (c : ℚ)
    (hnoinc : dictGet d "predicted_patient_increase" = Option.none)
    (hconf : dictGet d "confidence_score" = some (.num c)) :
    bonusApplied (some (.dict d)) ts
      = decide (|20 - ts.predicted_increase_pct| < 10) ∧
    (|20 - ts.predicted_increase_pct| < 10 →
      blendedConfidence (some (.dict d)) ts = some (min (c + 15) 95)) := by
  have heq : effectiveIncreaseOf d = some 20 := by
    unfold effectiveIncreaseOf
    rw [hnoinc]
    exact pyFloat_twenty
  constructor
  · unfold bonusApplied effectiveIncrease effectiveLLMData
    rw [heq]
  · intro hlt
    unfold blendedConfidence
    rw [combinePredictions_dict, combineCore_agree d ts 20 c heq hlt hconf]
    have h1 : dictGet (dictSet (dictSet d "confidence_score"
          (PyVal.num (min (c + 15) 95))) "statistical_forecast" ts.toPyVal)
        "confidence_score" = some (PyVal.num (min (c + 15) 95)) := by
      rw [dictGet_dictSet_ne _ _ _ _ (by decide), dictGet_dictSet_self]
    simp only [h1]

/-- A parseable model reply carrying no `predicted_patient_increase`. -/
def phantomRecord : PyDict :=
  [("surge_likelihood", .str "high"),
   ("confidence_score", .num 70),
   ("reasoning", .str "qualitative analysis only")]

/-- C10 witness: with the field missing and a quantitative forecast of 18
(within 10 of the substituted 20), the bonus fires and 70 becomes 85. -/
theorem missing_increase_default_twenty_witness :
    bonusApplied (some (.dict phantomRecord)) { predicted_increase_pct := 18 } = true ∧
    blendedConfidence (some (.dict phantomRecord)) { predicted_increase_pct := 18 }
      = some 85 := by
  have h := missing_increase_default_twenty phantomRecord
    { predicted_increase_pct := 18 } 70 (by rfl) (by rfl)
  have hlt : |(20 : ℚ) - (18 : ℚ)| < 10 := by norm_num
  constructor
  · rw [h.1]
    simp [hlt]
  · have hm : min ((70 : ℚ) + 15) 95 = 85 := by norm_num
    rw [h.2 hlt, hm]

/-! ## Claim C2: the confidence bound -/

/-- A parseable model reply whose confidence exceeds 100 — nothing in the
blender clamps the model-supplied base value. -/
def overconfidentRecord : PyDict :=
  [("surge_likelihood", .str "high"),
   ("confidence_score", .num 150),
   ("predicted_patient_increase", .str "50%"),
   ("reasoning", .str "model overconfidence")]

unseal Rat.add Rat.mul Rat.sub in
/-- C2 counterexample: a parsed reply with base confidence 150 and a
quantitative forecast 50 points away (no bonus) blends to confidence 150,
outside [0, 100] — the claim's bound fails without an assumption on the
base value. -/
theorem confidence_bound_counterexample :
    blendedConfidence (some (.dict overconfidentRecord))
        { predicted_increase_pct := 0 } = some 150 ∧
    bonusApplied (some (.dict overconfidentRecord))
        { predicted_increase_pct := 0 } = false ∧
    ¬ (150 : ℚ) ≤ 100 := by
  refine ⟨by decide, by decide, by norm_num⟩

/-- C2 (amended): provided the base `confidence_score` the blender starts
from lies in [0, 100], a successful blend's confidence lies in [0, 100],
and in [0, 95] whenever the agreement bonus was applied. -/
theorem confidence_bound_bounded_base (llmParse : Option PyVal)
    (ts : TSForecast) (c q : ℚ)
    (hbase : dictGet (effectiveLLMData llmParse) "confidence_score"
      = some (.num c))
    (h0 : 0 ≤ c) (h100 : c ≤ 100)
    (hq : blendedConfidence llmParse ts = some q) :
    0 ≤ q ∧ q ≤ 100 ∧ (bonusApplied llmParse ts = true → q ≤ 95) := by
  have hD : combinePredictions llmParse ts
      = combineCore (effectiveLLMData llmParse) ts := by
    cases llmParse with
    | none => rfl
    | some v =>
      cases v with
      | dict d => rfl
      | str s =>
          rw [show blendedConfidence (some (.str s)) ts = Option.none from rfl] at hq
          cases hq
      | num n =>
          rw [show blendedConfidence (some (.num n)) ts = Option.none from rfl] at hq
          cases hq
      | bool b =>
          rw [show blendedConfidence (some (.bool b)) ts = Option.none from rfl] at hq
          cases hq
      | none =>
          rw [show blendedConfidence (some PyVal.none) ts = Option.none from rfl] at hq
          cases hq
      | list xs =>
          rw [show blendedConfidence (some (.list xs)) ts = Option.none from rfl] at hq
          cases hq
  set D := effectiveLLMData llmParse with hDdef
  unfold blendedConfidence at hq
  rw [hD] at hq
  cases hok : combineCore D ts with
  | error e => rw [hok] at hq; cases hq
  | ok out =>
    rw [hok] at hq
    cases hv : effectiveIncreaseOf D with
    | none =>
        obtain ⟨e, he⟩ := combineCore_error_of_none D ts hv
        rw [he] at hok
        cases hok
    | some v =>
      have hbonus : bonusApplied llmParse ts
          = decide (|v - ts.predicted_increase_pct| < 10) := by
        unfold bonusApplied effectiveIncrease
        rw [← hDdef, hv]
      by_cases hlt : |v - ts.predicted_increase_pct| < 10
      · rw [combineCore_agree D ts v c hv hlt hbase] at hok
        injection hok with hout
        have h1 : dictGet (dictSet (dictSet D "confidence_score"
              (PyVal.num (min (c + 15) 95))) "statistical_forecast" ts.toPyVal)
            "confidence_score" = some (PyVal.num (min (c + 15) 95)) := by
          rw [dictGet_dictSet_ne _ _ _ _ (by decide), dictGet_dictSet_self]
        rw [← hout] at hq
        simp only [h1, Option.some.injEq] at hq
        subst hq
        refine ⟨le_min (by linarith) (by norm_num), ?_, fun _ => min_le_right _ _⟩
        calc min (c + 15) 95 ≤ 95 := min_le_right _ _
          _ ≤ 100 := by norm_num
      · rw [combineCore_disagree D ts v hv hlt] at hok
        injection hok with hout
        have h2 : dictGet (dictSet D "statistical_forecast" ts.toPyVal)
            "confidence_score" = dictGet D "confidence_score" :=
          dictGet_dictSet_ne _ _ _ _ (by decide)
        rw [← hout] at hq
        simp only [h2, hbase, Option.some.injEq] at hq
        subst hq
        refine ⟨h0, h100, fun hb => ?_⟩
        rw [hbonus] at hb
        simp [hlt] at hb

/-- A parsed reply with base confidence 50 and increase 30%. -/
def modestRecord : PyDict :=
  [("surge_likelihood", .str "medium"),
   ("confidence_score", .num 50),
   ("predicted_patient_increase", .str "30%"),
   ("reasoning", .str "moderate signals")]

unseal Rat.add Rat.mul Rat.sub in
/-- C2 witness: base confidence 50 (in range) and agreeing quantitative
forecast 28 blend to 65, which the amended bound places in [0, 95]. -/
theorem confidence_bound_bounded_base_witness :
    blendedConfidence (some (.dict modestRecord))
        { predicted_increase_pct := 28 } = some 65 ∧
    (0 : ℚ) ≤ 65 ∧ (65 : ℚ) ≤ 95 := by
  have hq : blendedConfidence (some (.dict modestRecord))
      { predicted_increase_pct := 28 } = some 65 := by decide
  have h := confidence_bound_bounded_base (some (.dict modestRecord))
    { predicted_increase_pct := 28 } 50 65 (by rfl) (by norm_num) (by norm_num) hq
  exact ⟨hq, h.1, h.2.2 (by decide)⟩

/-! ## Claim C4: the unparseable-output fallback -/

unseal Rat.add Rat.mul Rat.sub in
/-- C4 counterexample: with unparseable model output and a quantitative
forecast of 20, the blended confidence is 75, not the documented default
60 — the fallback record does not survive unchanged. -/
theorem default_record_counterexample :
    blendedConfidence Option.none { predicted_increase_pct := 20 } = some 75 ∧
    (75 : ℚ) ≠ 60 := by
  exact ⟨by decide, by norm_num⟩

unseal Rat.add Rat.mul Rat.sub in
/-- C4 (amended): on unparseable model output the blender starts from the
conservative default record (likelihood `medium`, confidence 60, reasoning
`Analysis in progress`), but still runs the agreement test against the
substituted increase `"20"`: the result keeps likelihood and reasoning,
carries confidence 75 when the quantitative forecast is within 10 points
of 20 and 60 otherwise, and has the forecast attached. -/
theorem unparseable_blend_result (ts : TSForecast) :
    combinePredictions Option.none ts =
      .ok [("surge_likelihood", .str "medium"),
           ("confidence_score",
             .num (if |20 - ts.predicted_increase_pct| < 10 then 75 else 60)),
           ("reasoning", .str "Analysis in progress"),
           ("statistical_forecast", ts.toPyVal)] := by
  rw [combinePredictions_none]
  have heq : effectiveIncreaseOf defaultRecord = some 20 := pyFloat_twenty
  by_cases hlt : |20 - ts.predicted_increase_pct| < 10
  · rw [combineCore_agree defaultRecord ts 20 60 heq hlt (by rfl), if_pos hlt]
    rfl
  · rw [combineCore_disagree defaultRecord ts 20 heq hlt, if_neg hlt]
    rfl

/-! ## The dispatcher: claims C6 and C9 -/

/-- Whether `execute_recommendations` has a branch for a recommendation's
type. -/
def isRecognized (r : PyVal) : Bool :=
  match r with
  | .dict d =>
    match dictGet d "type" with
    | some t => t.isStr "staff_reallocation" || t.isStr "supply_order"
        || t.isStr "patient_advisory"
    | Option.none => false
  | _ => false

/-- The entry `execute_recommendations` records for one recommendation when
its handler succeeds; `none` both for skipped (unrecognized) items and for
items whose processing raises. -/
def dispatchEntry (H : Handlers) (r : PyVal) : Option PyVal :=
  match r with
  | .dict d =>
    match dictGet d "type" with
    | some t =>
      if t.isStr "staff_reallocation" then
        match H.staffPlan r with
        | .ok plan => some (.dict [("recommendation", r), ("action_plan", plan)])
        | .error _ => Option.none
      else if t.isStr "supply_order" then
        match H.supplyOrder r with
        | .ok po => some (.dict [("recommendation", r), ("purchase_order", po)])
        | .error _ => Option.none
      else if t.isStr "patient_advisory" then
        match H.advisory r with
        | .ok adv => some (.dict [("recommendation", r), ("advisory", adv)])
        | .error _ => Option.none
      else Option.none
    | Option.none => Option.none
  | _ => Option.none

theorem exceptBind_ok {ε α β : Type} (a : α) (f : α → Except ε β) :
    ((Except.ok a : Except ε α) >>= f) = f a := rfl

/-- Unfolding of one dispatcher step on a dict recommendation, in plain
right-nested bind form. -/
theorem executeRecommendations_cons_dict (H : Handlers) (d : PyDict)
    (rest : List PyVal) :
    executeRecommendations H (.dict d :: rest) =
      pySubscript d "type" >>= fun t =>
        (if t.isStr "staff_reallocation" then
           H.staffPlan (.dict d) >>= fun plan =>
             pure (some (PyVal.dict [("recommendation", .dict d),
               ("action_plan", plan)]))
         else if t.isStr "supply_order" then
           H.supplyOrder (.dict d) >>= fun po =>
             pure (some (PyVal.dict [("recommendation", .dict d),
               ("purchase_order", po)]))
         else if t.isStr "patient_advisory" then
           H.advisory (.dict d) >>= fun adv =>
             pure (some (PyVal.dict [("recommendation", .dict d),
               ("advisory", adv)]))
         else pure Option.none) >>= fun entry =>
        executeRecommendations H rest >>= fun restResults =>
          pure (match entry with
                | some e => e :: restResults
                | Option.none => restResults) := by
  simp only [executeRecommendations]
  cases hpt : pySubscript d "type" with
  | error e => rfl
  | ok t =>
      simp only [exceptBind_ok]
      by_cases b1 : t.isStr "staff_reallocation"
      · simp only [if_pos b1]
        cases hsp : H.staffPlan (.dict d) with
        | error e => rfl
        | ok plan => rfl
      · simp only [if_neg b1]
        by_cases b2 : t.isStr "supply_order"
        · simp only [if_pos b2]
          cases hsp : H.supplyOrder (.dict d) with
          | error e => rfl
          | ok po => rfl
        · simp only [if_neg b2]
          by_cases b3 : t.isStr "patient_advisory"
          · simp only [if_pos b3]
            cases hsp : H.advisory (.dict d) with
            | error e => rfl
            | ok adv => rfl
          · simp only [if_neg b3]

/-- A completed dispatcher run produced exactly the entries of the
recognized recommendations, in input order. -/
theorem executeRecommendations_ok (H : Handlers) (recs rs : List PyVal)
    (hok : executeRecommendations H recs = .ok rs) :
    rs = recs.filterMap (dispatchEntry H) ∧
    rs.length = recs.countP isRecognized := by
  induction recs generalizing rs with
  | nil =>
      have h2 : (Except.ok [] : Except String (List PyVal)) = .ok rs := hok
      have h : rs = [] := (Except.ok.inj h2).symm
      subst h
      simp
  | cons r rest ih =>
      cases r with
      | str s =>
          have h2 : (Except.error "TypeError: not subscriptable" :
              Except String (List PyVal)) = .ok rs := hok
          exact absurd h2 (by simp)
      | num n =>
          have h2 : (Except.error "TypeError: not subscriptable" :
              Except String (List PyVal)) = .ok rs := hok
          exact absurd h2 (by simp)
      | bool b =>
          have h2 : (Except.error "TypeError: not subscriptable" :
              Except String (List PyVal)) = .ok rs := hok
          exact absurd h2 (by simp)
      | none =>
          have h2 : (Except.error "TypeError: not subscriptable" :
              Except String (List PyVal)) = .ok rs := hok
          exact absurd h2 (by simp)
      | list xs =>
          have h2 : (Except.error "TypeError: not subscriptable" :
              Except String (List PyVal)) = .ok rs := hok
          exact absurd h2 (by simp)
      | dict d =>
        rw [executeRecommendations_cons_dict] at hok
        obtain ⟨t, ht, hok2⟩ := exceptBind_ok_iff.mp hok
        have hgt : dictGet d "type" = some t := (pySubscript_ok_iff d "type" t).mp ht
        obtain ⟨entry, hentry, hok3⟩ := exceptBind_ok_iff.mp hok2
        obtain ⟨rs', hrest, hpure⟩ := exceptBind_ok_iff.mp hok3
        obtain ⟨hfm, hlen⟩ := ih rs' hrest
        by_cases b1 : t.isStr "staff_reallocation"
        · rw [if_pos b1] at hentry
          obtain ⟨plan, hplan, hp⟩ := exceptBind_ok_iff.mp hentry
          have he : entry = some (.dict [("recommendation", .dict d),
              ("action_plan", plan)]) := by
            have h3 : (Except.ok (some (PyVal.dict [("recommendation", .dict d),
                ("action_plan", plan)])) : Except String (Option PyVal))
                = .ok entry := hp
            exact (Except.ok.inj h3).symm
          subst he
          have hrs : rs = PyVal.dict [("recommendation", .dict d),
              ("action_plan", plan)] :: rs' := by
            have h2 : (Except.ok (PyVal.dict [("recommendation", .dict d),
                ("action_plan", plan)] :: rs') : Except String (List PyVal))
                = .ok rs := hpure
            exact (Except.ok.inj h2).symm
          have hde : dispatchEntry H (.dict d) = some (.dict
              [("recommendation", .dict d), ("action_plan", plan)]) := by
            simp [dispatchEntry, hgt, b1, hplan]
          have hrec : isRecognized (.dict d) = true := by
            simp [isRecognized, hgt, b1]
          subst hrs
          constructor
          · rw [List.filterMap_cons_some hde, hfm]
          · rw [List.countP_cons_of_pos _ _ hrec]
            simp [hlen]
        · by_cases b2 : t.isStr "supply_order"
          · rw [if_neg b1, if_pos b2] at hentry
            obtain ⟨po, hpo, hp⟩ := exceptBind_ok_iff.mp hentry
            have he : entry = some (.dict [("recommendation", .dict d),
                ("purchase_order", po)]) := by
              have h3 : (Except.ok (some (PyVal.dict [("recommendation", .dict d),
                  ("purchase_order", po)])) : Except String (Option PyVal))
                  = .ok entry := hp
              exact (Except.ok.inj h3).symm
            subst he
            have hrs : rs = PyVal.dict [("recommendation", .dict d),
                ("purchase_order", po)] :: rs' := by
              have h2 : (Except.ok (PyVal.dict [("recommendation", .dict d),
                  ("purchase_order", po)] :: rs') : Except String (List PyVal))
                  = .ok rs := hpure
              exact (Except.ok.inj h2).symm
            have hde : dispatchEntry H (.dict d) = some (.dict
                [("recommendation", .dict d), ("purchase_order", po)]) := by
              simp [dispatchEntry, hgt, b1, b2, hpo]
            have hrec : isRecognized (.dict d) = true := by
              simp [isRecognized, hgt, b2]
            subst hrs
            constructor
            · rw [List.filterMap_cons_some hde, hfm]
            · rw [List.countP_cons_of_pos _ _ hrec]
              simp [hlen]
          · by_cases b3 : t.isStr "patient_advisory"
            · rw [if_neg b1, if_neg b2, if_pos b3] at hentry
              obtain ⟨adv, hadv, hp⟩ := exceptBind_ok_iff.mp hentry
              have he : entry = some (.dict [("recommendation", .dict d),
                  ("advisory", adv)]) := by
                have h3 : (Except.ok (some (PyVal.dict [("recommendation", .dict d),
                    ("advisory", adv)])) : Except String (Option PyVal))
                    = .ok entry := hp
                exact (Except.ok.inj h3).symm
              subst he
              have hrs : rs = PyVal.dict [("recommendation", .dict d),
                  ("advisory", adv)] :: rs' := by
                have h2 : (Except.ok (PyVal.dict [("recommendation", .dict d),
                    ("advisory", adv)] :: rs') : Except String (List PyVal))
                    = .ok rs := hpure
                exact (Except.ok.inj h2).symm
              have hde : dispatchEntry H (.dict d) = some (.dict
                  [("recommendation", .dict d), ("advisory", adv)]) := by
                simp [dispatchEntry, hgt, b1, b2, b3, hadv]
              have hrec : isRecognized (.dict d) = true := by
                simp [isRecognized, hgt, b3]
              subst hrs
              constructor
              · rw [List.filterMap_cons_some hde, hfm]
              · rw [List.countP_cons_of_pos _ _ hrec]
                simp [hlen]
            · rw [if_neg b1, if_neg b2, if_neg b3] at hentry
              have he : entry = Option.none := by
                have h3 : (Except.ok (Option.none : Option PyVal) :
                    Except String (Option PyVal)) = .ok entry := hentry
                exact (Except.ok.inj h3).symm
              subst he
              have hrs : rs = rs' := by
                have h2 : (Except.ok rs' : Except String (List PyVal))
                    = .ok rs := hpure
                exact (Except.ok.inj h2).symm
              have hde : dispatchEntry H (.dict d) = Option.none := by
                simp [dispatchEntry, hgt, b1, b2, b3]
              have hrec : isRecognized (.dict d) = false := by
                simp [isRecognized, hgt, b1, b2, b3]
              subst hrs
              constructor
              · rw [List.filterMap_cons_none hde, hfm]
              · rw [List.countP_cons_of_neg _ _ (by simp [hrec])]
                exact hlen

theorem length_filterMap_lt {α β : Type} (f : α → Option β) (l : List α)
    (a : α) (ha : a ∈ l) (hfa : f a = Option.none) :
    (l.filterMap f).length < l.length := by
  induction l with
  | nil => cases ha
  | cons x xs ih =>
    rcases List.mem_cons.mp ha with h | h
    · subst h
      rw [List.filterMap_cons_none hfa]
      calc (List.filterMap f xs).length ≤ xs.length := List.length_filterMap_le f xs
        _ < (a :: xs).length := by simp
    · cases hfx : f x with
      | none =>
          rw [List.filterMap_cons_none hfx]
          exact (ih h).trans (by simp)
      | some b =>
          rw [List.filterMap_cons_some hfx]
          simpa using ih h

/-- A staff-reallocation recommendation fixture. -/
def staffRecX : PyVal :=
  .dict [("type", .str "staff_reallocation"),
         ("title", .str "Move 5 nurses from OPD to ER"),
         ("priority", .str "high"),
         ("reasoning", .str "ER surge predicted in 12 hours")]

/-- A supply-order recommendation fixture. -/
def supplyRecX : PyVal :=
  .dict [("type", .str "supply_order"),
         ("title", .str "Order 20 O2 cylinders (emergency)"),
         ("priority", .str "critical"),
         ("reasoning", .str "Current stock at 90%")]

/-- A recommendation whose type matches no dispatcher branch. -/
def unknownRecX : PyVal :=
  .dict [("type", .str "bed_expansion"),
         ("title", .str "Open overflow ward"),
         ("priority", .str "high"),
         ("reasoning", .str "capacity planning")]

/-- Handlers whose staff branch raises and whose other branches succeed. -/
def failingStaffHandlers : Handlers :=
  { staffPlan := fun _ => .error "RateLimitError: model call rate limited",
    supplyOrder := fun _ => .ok (.str "draft purchase order"),
    advisory := fun _ => .ok (.str "draft advisory") }

/-- Handlers that succeed on every branch. -/
def okHandlers : Handlers :=
  { staffPlan := fun _ => .ok (.str "staff plan"),
    supplyOrder := fun _ => .ok (.str "purchase order"),
    advisory := fun _ => .ok (.str "advisory") }

/-- C6 counterexample: with the first item's handler raising, the
dispatcher raises and processes nothing further — the output does not
contain one entry per input, and no error entry is recorded. -/
theorem dispatcher_abort_counterexample :
    executeRecommendations failingStaffHandlers [staffRecX, supplyRecX]
      = .error "RateLimitError: model call rate limited" := rfl

/-- C6 (amended): there is no per-item error isolation — a handler failure
raises and aborts the run; when every processed handler succeeds, the
output contains exactly one artifact entry per recognized-type
recommendation, in input order. -/
theorem dispatcher_success_one_entry_each (H : Handlers) (recs rs : List PyVal)
    (hok : executeRecommendations H recs = .ok rs) :
    rs = recs.filterMap (dispatchEntry H) ∧
    rs.length = recs.countP isRecognized :=
  executeRecommendations_ok H recs rs hok

/-- C6 witness: both fixtures processed successfully, one entry each. -/
theorem dispatcher_success_one_entry_each_witness :
    executeRecommendations okHandlers [staffRecX, supplyRecX] = .ok
      [.dict [("recommendation", staffRecX), ("action_plan", .str "staff plan")],
       .dict [("recommendation", supplyRecX),
              ("purchase_order", .str "purchase order")]] ∧
    ([staffRecX, supplyRecX].filterMap (dispatchEntry okHandlers)).length
      = [staffRecX, supplyRecX].countP isRecognized := by
  have h : executeRecommendations okHandlers [staffRecX, supplyRecX] = .ok
      [.dict [("recommendation", staffRecX), ("action_plan", .str "staff plan")],
       .dict [("recommendation", supplyRecX),
              ("purchase_order", .str "purchase order")]] := rfl
  obtain ⟨h1, h2⟩ := dispatcher_success_one_entry_each okHandlers
    [staffRecX, supplyRecX] _ h
  exact ⟨h, by rw [← h1]; exact h2⟩

/-- C9: a recommendation whose type is none of the three recognized kinds
is silently skipped — a completed dispatcher run contains no entry for it,
and the output is strictly shorter than the input. -/
theorem unknown_type_silently_skipped (H : Handlers) (recs rs : List PyVal)
    (r0 : PyVal) (d0 : PyDict) (t0 : PyVal)
    (hmem : r0 ∈ recs) (hr0 : r0 = .dict d0)
    (ht0 : dictGet d0 "type" = some t0)
    (hu1 : t0.isStr "staff_reallocation" = false)
    (hu2 : t0.isStr "supply_order" = false)
    (hu3 : t0.isStr "patient_advisory" = false)
    (hok : executeRecommendations H recs = .ok rs) :
    rs.length < recs.length ∧
    ∀ e ∈ rs, ∀ ed, e = .dict ed → dictGet ed "recommendation" ≠ some r0 := by
  obtain ⟨hfm, _⟩ := executeRecommendations_ok H recs rs hok
  have hde0 : dispatchEntry H r0 = Option.none := by
    subst hr0
    simp [dispatchEntry, ht0, hu1, hu2, hu3]
  constructor
  · rw [hfm]
    exact length_filterMap_lt _ recs r0 hmem hde0
  · intro e he ed hed hcontra
    rw [hfm] at he
    obtain ⟨r, hrmem, hdisp⟩ := List.mem_filterMap.mp he
    have hrne : r ≠ r0 := by
      intro hr
      rw [hr, hde0] at hdisp
      cases hdisp
    cases r with
    | str s => simp [dispatchEntry] at hdisp
    | num n => simp [dispatchEntry] at hdisp
    | bool b => simp [dispatchEntry] at hdisp
    | none => simp [dispatchEntry] at hdisp
    | list xs => simp [dispatchEntry] at hdisp
    | dict dr =>
      cases htr : dictGet dr "type" with
      | none => simp [dispatchEntry, htr] at hdisp
      | some tr =>
        by_cases c1 : tr.isStr "staff_reallocation"
        · cases hsp : H.staffPlan (.dict dr) with
          | error err => simp [dispatchEntry, htr, c1, hsp] at hdisp
          | ok plan =>
              simp [dispatchEntry, htr, c1, hsp] at hdisp
              rw [← hdisp] at hed
              cases hed
              simp [dictGet_cons] at hcontra
              exact hrne hcontra
        · by_cases c2 : tr.isStr "supply_order"
          · cases hsp : H.supplyOrder (.dict dr) with
            | error err => simp [dispatchEntry, htr, c1, c2, hsp] at hdisp
            | ok po =>
                simp [dispatchEntry, htr, c1, c2, hsp] at hdisp
                rw [← hdisp] at hed
                cases hed
                simp [dictGet_cons] at hcontra
                exact hrne hcontra
          · by_cases c3 : tr.isStr "patient_advisory"
            · cases hsp : H.advisory (.dict dr) with
              | error err => simp [dispatchEntry, htr, c1, c2, c3, hsp] at hdisp
              | ok adv =>
                  simp [dispatchEntry, htr, c1, c2, c3, hsp] at hdisp
                  rw [← hdisp] at hed
                  cases hed
                  simp [dictGet_cons] at hcontra
                  exact hrne hcontra
            · simp [dispatchEntry, htr, c1, c2, c3] at hdisp

/-- C9 witness: a two-item input with one unrecognized item yields a
one-entry output (strictly shorter) that never references the skipped
item. -/
theorem unknown_type_silently_skipped_witness :
    executeRecommendations okHandlers [staffRecX, unknownRecX] = .ok
      [.dict [("recommendation", staffRecX), ("action_plan", .str "staff plan")]] ∧
    ([(PyVal.dict [("recommendation", staffRecX),
        ("action_plan", .str "staff plan")])] : List PyVal).length
      < ([staffRecX, unknownRecX] : List PyVal).length := by
  have h : executeRecommendations okHandlers [staffRecX, unknownRecX] = .ok
      [.dict [("recommendation", staffRecX),
        ("action_plan", .str "staff plan")]] := rfl
  have h2 := unknown_type_silently_skipped okHandlers [staffRecX, unknownRecX]
    [.dict [("recommendation", staffRecX), ("action_plan", .str "staff plan")]]
    unknownRecX
    [("type", .str "bed_expansion"), ("title", .str "Open overflow ward"),
     ("priority", .str "high"), ("reasoning", .str "capacity planning")]
    (.str "bed_expansion")
    (by simp [unknownRecX]) rfl rfl rfl rfl rfl h
  exact ⟨h, h2.1⟩

/-! ## Claim C8: the staffing fatigue constraint -/

/-- The scenario's staff mapping: the only available nurse has fatigue 85. -/
def fatiguedStaffC8 : PyDict :=
  [("Nurse A", .dict [("role", .str "nurse"),
                      ("status", .str "available"),
                      ("shift", .str "evening"),
                      ("fatigue_score", .num 85)])]

/-- The staff-reallocation recommendation handed to the handler. -/
def staffRecC8 : PyDict :=
  [("type", .str "staff_reallocation"),
   ("title", .str "Move 5 nurses from OPD to ER"),
   ("priority", .str "high"),
   ("reasoning", .str "ER surge predicted in 12 hours")]

/-- A model reply that moves the fatigued nurse anyway, with ordinary
implementation notes. -/
def fatiguedPlanC8 : PyVal :=
  .dict [("staff_to_move", .list [.dict [("name", .str "Nurse A"),
            ("from", .str "OPD"), ("to", .str "ER"),
            ("shift", .str "evening")]]),
         ("estimated_overtime_hours", .num 10),
         ("cost_impact", .num (-5000)),
         ("implementation_notes", .str "Proceed immediately")]

/-- C8 counterexample: the handler returns the model's plan verbatim, so a
plan listing the nurse whose recorded fatigue score is 85 (> 70) as moved,
with no manual-review note, is produced unchanged — nothing rejects it. -/
theorem staff_fatigue_counterexample :
    draftReallocationPlan staffRecC8 fatiguedStaffC8 (.ok (some fatiguedPlanC8))
      = .ok fatiguedPlanC8 ∧
    fatigueScoreOf fatiguedStaffC8 "Nurse A" = some 85 ∧
    (70 : ℚ) < 85 ∧
    "Nurse A" ∈ staffToMoveNames fatiguedPlanC8 ∧
    implementationNotes fatiguedPlanC8 = some (.str "Proceed immediately") := by
  refine ⟨rfl, rfl, by norm_num, ?_, rfl⟩
  exact List.mem_singleton_self "Nurse A"

/-- C8 (amended): the fatigue rule exists only as prompt text — the handler
performs no check on the parsed reply and returns it verbatim, so whether a
staff member with fatigue_score above 70 is listed in `staff_to_move` is
decided entirely by the generative model. -/
theorem staff_plan_passthrough (recommendation current_staff : PyDict)
    (plan tv rv : PyVal)
    (htitle : dictGet recommendation "title" = some tv)
    (hreason : dictGet recommendation "reasoning" = some rv) :
    draftReallocationPlan recommendation current_staff (.ok (some plan))
      = .ok plan := by
  unfold draftReallocationPlan
  rw [show pySubscript recommendation "title" = .ok tv from
      (pySubscript_ok_iff _ _ _).mpr htitle]
  rw [show pySubscript recommendation "reasoning" = .ok rv from
      (pySubscript_ok_iff _ _ _).mpr hreason]
  rfl

/-- C8 witness: the pass-through at the scenario's concrete inputs. -/
theorem staff_plan_passthrough_witness :
    draftReallocationPlan staffRecC8 fatiguedStaffC8 (.ok (some fatiguedPlanC8))
      = .ok fatiguedPlanC8 :=
  staff_plan_passthrough staffRecC8 fatiguedStaffC8 fatiguedPlanC8
    (.str "Move 5 nurses from OPD to ER")
    (.str "ER surge predicted in 12 hours") rfl rfl

/-! ## Node-level lemmas for the workflow run -/

/-- Whether an `Except` result is a success. -/
def exceptIsOk {ε α : Type} : Except ε α → Bool :=
  fun x => match x with
  | .ok _ => true
  | .error _ => false

theorem exceptPure_ok {ε α : Type} {x u : α}
    (h : (pure x : Except ε α) = .ok u) : u = x :=
  (Except.ok.inj h).symm

/-- A successful sentinel body returns exactly one message and writes the
blended record as the whole `surge_prediction`. -/
theorem monitorAndPredict_ok_shape (env : Env) (s : AgentState)
    (u : StateUpdate) (h : monitorAndPredict env s = .ok u) :
    u.messages.length = 1 ∧ ∃ d, u.surge_prediction = some d := by
  unfold monitorAndPredict at h
  obtain ⟨lp, hlp, h2⟩ := exceptBind_ok_iff.mp h
  obtain ⟨cd, hcd, h3⟩ := exceptBind_ok_iff.mp h2
  obtain ⟨conf, hconf, h4⟩ := exceptBind_ok_iff.mp h3
  obtain ⟨sl, hsl, h5⟩ := exceptBind_ok_iff.mp h4
  obtain ⟨reasoning, hre, h6⟩ := exceptBind_ok_iff.mp h5
  have hu := exceptPure_ok h6
  subst hu
  exact ⟨rfl, cd, rfl⟩

/-- A successful orchestrator body returns exactly one message and does not
touch `surge_prediction`. -/
theorem orchestrate_ok_shape (env : Env) (s : AgentState)
    (u : StateUpdate) (h : orchestrate env s = .ok u) :
    u.messages.length = 1 ∧ u.surge_prediction = Option.none := by
  unfold orchestrate at h
  obtain ⟨sl, hsl, h2⟩ := exceptBind_ok_iff.mp h
  by_cases hlow : sl.isStr "low"
  · rw [if_pos hlow] at h2
    have hu := exceptPure_ok h2
    subst hu
    exact ⟨rfl, rfl⟩
  · rw [if_neg hlow] at h2
    obtain ⟨conf, hconf, h3⟩ := exceptBind_ok_iff.mp h2
    obtain ⟨output, hout, h4⟩ := exceptBind_ok_iff.mp h3
    have hu := exceptPure_ok h4
    subst hu
    exact ⟨rfl, rfl⟩

/-- A successful action body returns exactly one message and does not touch
`surge_prediction`. -/
theorem actionNode_ok_shape (env : Env) (s : AgentState)
    (u : StateUpdate) (h : actionNode env s = .ok u) :
    u.messages.length = 1 ∧ u.surge_prediction = Option.none := by
  unfold actionNode at h
  obtain ⟨results, hres, h2⟩ := exceptBind_ok_iff.mp h
  have hu := exceptPure_ok h2
  subst hu
  exact ⟨rfl, rfl⟩

/-- Every successful node execution appends exactly one message. -/
theorem nodeStep_messages (env : Env) (n : Node) (s s' : AgentState)
    (h : nodeStep env n s = .ok s') :
    s'.messages.length = s.messages.length + 1 := by
  cases n with
  | sentinel =>
      have h' : (monitorAndPredict env s >>= fun u => pure (s.merge u))
          = .ok s' := h
      obtain ⟨u, hu, hp⟩ := exceptBind_ok_iff.mp h'
      have hm := (monitorAndPredict_ok_shape env s u hu).1
      have hs := exceptPure_ok hp
      subst hs
      simp [AgentState.merge, hm]
  | orchestrator =>
      have h' : (orchestrate env s >>= fun u => pure (s.merge u)) = .ok s' := h
      obtain ⟨u, hu, hp⟩ := exceptBind_ok_iff.mp h'
      have hm := (orchestrate_ok_shape env s u hu).1
      have hs := exceptPure_ok hp
      subst hs
      simp [AgentState.merge, hm]
  | action_agents =>
      have h' : (actionNode env s >>= fun u => pure (s.merge u)) = .ok s' := h
      obtain ⟨u, hu, hp⟩ := exceptBind_ok_iff.mp h'
      have hm := (actionNode_ok_shape env s u hu).1
      have hs := exceptPure_ok hp
      subst hs
      simp [AgentState.merge, hm]
  | monitor =>
      have hs := exceptPure_ok (show (pure (s.merge monitorUpdate) :
          Except String AgentState) = .ok s' from h)
      subst hs
      simp [AgentState.merge, monitorUpdate]

/-- Non-sentinel nodes never change `surge_prediction`. -/
theorem nodeStep_preserves_surge (env : Env) (n : Node) (s s' : AgentState)
    (hn : n ≠ Node.sentinel) (h : nodeStep env n s = .ok s') :
    s'.surge_prediction = s.surge_prediction := by
  cases n with
  | sentinel => exact absurd rfl hn
  | orchestrator =>
      have h' : (orchestrate env s >>= fun u => pure (s.merge u)) = .ok s' := h
      obtain ⟨u, hu, hp⟩ := exceptBind_ok_iff.mp h'
      have hm := (orchestrate_ok_shape env s u hu).2
      have hs := exceptPure_ok hp
      subst hs
      simp [AgentState.merge, hm]
  | action_agents =>
      have h' : (actionNode env s >>= fun u => pure (s.merge u)) = .ok s' := h
      obtain ⟨u, hu, hp⟩ := exceptBind_ok_iff.mp h'
      have hm := (actionNode_ok_shape env s u hu).2
      have hs := exceptPure_ok hp
      subst hs
      simp [AgentState.merge, hm]
  | monitor =>
      have hs := exceptPure_ok (show (pure (s.merge monitorUpdate) :
          Except String AgentState) = .ok s' from h)
      subst hs
      rfl

/-- The router outcome in terms of the merged prediction. -/
theorem shouldEscalate_iff (s : AgentState) :
    shouldEscalate s = "escalate" ↔
      (dictGet s.surge_prediction "surge_likelihood" = some (.str "high") ∨
       dictGet s.surge_prediction "surge_likelihood" = some (.str "critical")) := by
  unfold shouldEscalate
  cases hg : dictGet s.surge_prediction "surge_likelihood" with
  | none => simp [PyVal.isStr]
  | some v =>
    cases v with
    | str t =>
        by_cases h1 : t = "high"
        · subst h1
          simp [PyVal.isStr]
        · by_cases h2 : t = "critical"
          · subst h2
            simp [PyVal.isStr]
          · simp [PyVal.isStr, h1, h2]
    | num q => simp [PyVal.isStr]
    | bool b => simp [PyVal.isStr]
    | none => simp [PyVal.isStr]
    | list xs => simp [PyVal.isStr]
    | dict fs => simp [PyVal.isStr]

/-- Messages grow by at least the number of nodes the driver visits. -/
theorem runFrom_messages (fuel : Nat) :
    ∀ (env : Env) (n : Node) (s sF : AgentState) (path : List Node),
    runFrom fuel env n s = .ok (sF, path) →
    s.messages.length + path.length ≤ sF.messages.length := by
  induction fuel with
  | zero =>
      intro env n s sF path h
      exact absurd (show (Except.error "GraphRecursionError" :
        Except String (AgentState × List Node)) = .ok (sF, path) from h) (by simp)
  | succ fuel ih =>
      intro env n s sF path h
      have h' : (nodeStep env n s >>= fun s' =>
          match graphEdge n s' with
          | Target.END => pure (s', [n])
          | Target.node m => runFrom fuel env m s' >>= fun r =>
              pure (r.1, n :: r.2)) = .ok (sF, path) := h
      obtain ⟨s', h1, h2⟩ := exceptBind_ok_iff.mp h'
      have hstep := nodeStep_messages env n s s' h1
      cases hge : graphEdge n s' with
      | END =>
          rw [hge] at h2
          have h3 := exceptPure_ok h2
          have hsf : sF = s' := congrArg Prod.fst h3
          have hpath : path = [n] := congrArg Prod.snd h3
          subst hsf
          subst hpath
          simp [hstep]
      | node m =>
          rw [hge] at h2
          obtain ⟨r, hr, hp⟩ := exceptBind_ok_iff.mp h2
          have h3 := exceptPure_ok hp
          have hsf : sF = r.1 := congrArg Prod.fst h3
          have hpath : path = n :: r.2 := congrArg Prod.snd h3
          subst hsf
          subst hpath
          have htail := ih env m s' r.1 r.2 hr
          simp only [List.length_cons]
          omega

/-- C7: LangGraph's reducer merge never shrinks the three append-only
sequences, and a completed run's final message log is at least as long as
the number of stages executed (each appends at least one message). -/
theorem append_only_invariant :
    (∀ (s : AgentState) (u : StateUpdate),
        s.messages.length ≤ (s.merge u).messages.length ∧
        s.reasoning_chain.length ≤ (s.merge u).reasoning_chain.length ∧
        s.recommendations.length ≤ (s.merge u).recommendations.length) ∧
    (∀ (env : Env) (s0 sF : AgentState) (path : List Node),
        run env s0 = .ok (sF, path) →
        s0.messages.length + path.length ≤ sF.messages.length) := by
  constructor
  · intro s u
    refine ⟨?_, ?_, ?_⟩ <;> simp [AgentState.merge]
  · intro env s0 sF path h
    exact runFrom_messages 4 env Node.sentinel s0 sF path h

/-- C1: after the sentinel stage, a completed run escalated through
Orchestrator and ActionAgents exactly when the merged prediction's
likelihood is `high` or `critical`; for every other value, including a
missing key, it visited only Monitor. -/
theorem sentinel_routing_correct (env : Env) (s0 sF : AgentState)
    (path : List Node) (hrun : run env s0 = .ok (sF, path)) :
    ((dictGet sF.surge_prediction "surge_likelihood" = some (.str "high") ∨
      dictGet sF.surge_prediction "surge_likelihood" = some (.str "critical")) →
        path = [Node.sentinel, Node.orchestrator, Node.action_agents]) ∧
    (¬ (dictGet sF.surge_prediction "surge_likelihood" = some (.str "high") ∨
        dictGet sF.surge_prediction "surge_likelihood" = some (.str "critical")) →
        path = [Node.sentinel, Node.monitor]) := by
  have hrun' : (nodeStep env Node.sentinel s0 >>= fun s' =>
      match graphEdge Node.sentinel s' with
      | Target.END => pure (s', [Node.sentinel])
      | Target.node m => runFrom 3 env m s' >>= fun r =>
          pure (r.1, Node.sentinel :: r.2)) = .ok (sF, path) := hrun
  obtain ⟨s1, h1, h2⟩ := exceptBind_ok_iff.mp hrun'
  have hge : graphEdge Node.sentinel s1
      = (if shouldEscalate s1 = "escalate" then Target.node Node.orchestrator
         else Target.node Node.monitor) := rfl
  by_cases hesc : shouldEscalate s1 = "escalate"
  · rw [hge, if_pos hesc] at h2
    have h3 : (runFrom 3 env Node.orchestrator s1 >>= fun r =>
        pure (r.1, Node.sentinel :: r.2)) = .ok (sF, path) := h2
    obtain ⟨r1, hr1, hp1⟩ := exceptBind_ok_iff.mp h3
    have hr1' : (nodeStep env Node.orchestrator s1 >>= fun s' =>
        runFrom 2 env Node.action_agents s' >>= fun r =>
          pure (r.1, Node.orchestrator :: r.2)) = .ok r1 := hr1
    obtain ⟨s2, ho, h4⟩ := exceptBind_ok_iff.mp hr1'
    obtain ⟨r2, hr2, hp2⟩ := exceptBind_ok_iff.mp h4
    have hr2' : (nodeStep env Node.action_agents s2 >>= fun s' =>
        pure (s', [Node.action_agents])) = .ok r2 := hr2
    obtain ⟨s3, ha, hp3⟩ := exceptBind_ok_iff.mp hr2'
    have e3 := exceptPure_ok hp3
    have e2 := exceptPure_ok hp2
    have e1 := exceptPure_ok hp1
    have hsf : sF = s3 := by
      have : sF = r1.1 := congrArg Prod.fst e1
      rw [this, e2]
      exact congrArg Prod.fst e3
    have hpath : path = [Node.sentinel, Node.orchestrator, Node.action_agents] := by
      have hp : path = Node.sentinel :: r1.2 := congrArg Prod.snd e1
      rw [hp, e2]
      have : r2.2 = [Node.action_agents] := by rw [e3]
      simp [this]
    have hs3surge : s3.surge_prediction = s1.surge_prediction := by
      rw [nodeStep_preserves_surge env Node.action_agents s2 s3 (by simp) ha,
          nodeStep_preserves_surge env Node.orchestrator s1 s2 (by simp) ho]
    have hcond := (shouldEscalate_iff s1).mp hesc
    rw [hsf]
    rw [hs3surge]
    exact ⟨fun _ => hpath, fun hn => absurd hcond hn⟩
  · rw [hge, if_neg hesc] at h2
    have h3 : (Except.ok (s1.merge monitorUpdate,
        [Node.sentinel, Node.monitor]) :
        Except String (AgentState × List Node)) = .ok (sF, path) := h2
    have e1 := (Except.ok.inj h3).symm
    have hsf : sF = s1.merge monitorUpdate := congrArg Prod.fst e1
    have hpath : path = [Node.sentinel, Node.monitor] := congrArg Prod.snd e1
    have hsurge : (s1.merge monitorUpdate).surge_prediction
        = s1.surge_prediction := rfl
    have hcond : ¬ (dictGet s1.surge_prediction "surge_likelihood"
          = some (.str "high") ∨
        dictGet s1.surge_prediction "surge_likelihood"
          = some (.str "critical")) := fun hc =>
      hesc ((shouldEscalate_iff s1).mpr hc)
    rw [hsf, hsurge]
    exact ⟨fun hc => absurd hc hcond, fun _ => hpath⟩

/-! ## Claim C3: transient failures at the stage boundary -/

/-- An environment whose sentinel model call raises a timeout. -/
def timeoutEnv : Env :=
  { sentinelLLM := .error "ReadTimeout: generative service timed out",
    tsForecast := { predicted_increase_pct := 0 },
    orchLLM := .ok "Recommendations generated",
    handlers := okHandlers }

/-- C3 counterexample: a transient model failure inside the sentinel stage
is not caught at the node boundary — the node raises the same exception and
the whole run aborts with it, instead of merging a degraded
`sentinel failed` update with `next_action` `continue_monitoring`. -/
theorem transient_failure_propagates_counterexample :
    nodeStep timeoutEnv Node.sentinel {}
      = .error "ReadTimeout: generative service timed out" ∧
    run timeoutEnv {} = .error "ReadTimeout: generative service timed out" :=
  ⟨rfl, rfl⟩

/-- C3 (amended): nothing at the stage boundary catches transient
failures: whenever the sentinel's model call raises, the sentinel node and
the whole workflow run raise that same exception to the caller; no
degraded partial update is merged.  (Only model output that returns but is
unparseable is degraded, inside the blender, to the conservative default
record.) -/
theorem sentinel_error_propagates (env : Env) (s : AgentState) (e : String)
    (herr : env.sentinelLLM = .error e) :
    nodeStep env Node.sentinel s = .error e ∧ run env s = .error e := by
  have h1 : nodeStep env Node.sentinel s = .error e := by
    show (monitorAndPredict env s >>= fun u => pure (s.merge u)) = .error e
    unfold monitorAndPredict
    rw [herr]
    rfl
  refine ⟨h1, ?_⟩
  show (nodeStep env Node.sentinel s >>= fun s' =>
      match graphEdge Node.sentinel s' with
      | Target.END => pure (s', [Node.sentinel])
      | Target.node m => runFrom 3 env m s' >>= fun r =>
          pure (r.1, Node.sentinel :: r.2)) = .error e
  rw [h1]
  rfl

/-- C3 witness: the amended propagation applied to the concrete timeout
environment. -/
theorem sentinel_error_propagates_witness :
    run timeoutEnv {} = .error "ReadTimeout: generative service timed out" :=
  (sentinel_error_propagates timeoutEnv {} _ rfl).2

/-! ## Concrete run environments and witnesses -/

/-- A parsed model reply predicting a critical surge. -/
def criticalLLMReply : PyVal :=
  .dict [("surge_likelihood", .str "critical"),
         ("confidence_score", .num 90),
         ("predicted_patient_increase", .str "30%"),
         ("reasoning", .str "Severe AQI spike during festival")]

/-- An environment driving the escalation path, with every external call
succeeding. -/
def escalationEnv : Env :=
  { sentinelLLM := .ok (some criticalLLMReply),
    tsForecast := { predicted_increase_pct := 28 },
    orchLLM := .ok "Recommendations generated",
    handlers := okHandlers }

/-- An environment driving the monitoring-only path. -/
def monitoringEnv : Env :=
  { sentinelLLM := .ok (some (.dict [("surge_likelihood", .str "low"),
      ("confidence_score", .num 65),
      ("reasoning", .str "Normal conditions")])),
    tsForecast := { predicted_increase_pct := 35 },
    orchLLM := .ok "Recommendations generated",
    handlers := okHandlers }

unseal Rat.add Rat.mul Rat.sub in
/-- C1 witness: the critical-likelihood environment completes and its path
is Sentinel, Orchestrator, ActionAgents, as the routing theorem dictates. -/
theorem sentinel_routing_correct_witness :
    (run escalationEnv {}).toOption.map Prod.snd
      = some [Node.sentinel, Node.orchestrator, Node.action_agents] := by
  obtain ⟨p, hr⟩ : ∃ p, run escalationEnv ({} : AgentState) = .ok p := by
    cases hr : run escalationEnv ({} : AgentState) with
    | ok p => exact ⟨p, rfl⟩
    | error e =>
        have hsome : exceptIsOk (run escalationEnv ({} : AgentState)) = true := rfl
        rw [hr] at hsome
        exact absurd hsome (by simp [exceptIsOk])
  obtain ⟨sF, path⟩ := p
  have hsl : dictGet sF.surge_prediction "surge_likelihood"
      = some (.str "critical") := by
    have hproj : (run escalationEnv ({} : AgentState)).toOption.map
        (fun p => dictGet p.1.surge_prediction "surge_likelihood")
        = some (some (.str "critical")) := rfl
    rw [hr] at hproj
    have hcast : some (dictGet sF.surge_prediction "surge_likelihood")
        = some (some (PyVal.str "critical")) := hproj
    exact Option.some.inj hcast
  have hpath := (sentinel_routing_correct escalationEnv {} sF path hr).1
    (Or.inr hsl)
  rw [hr, hpath]
  rfl

unseal Rat.add Rat.mul Rat.sub in
/-- C7 witness: a merge at a concrete state does not shrink the log, and
the completed monitoring run carries at least one message per visited
stage. -/
theorem append_only_invariant_witness :
    ({ messages := ["seed"] } : AgentState).messages.length
      ≤ (({ messages := ["seed"] } : AgentState).merge monitorUpdate).messages.length ∧
    (run monitoringEnv {}).toOption.map
      (fun p => decide (({} : AgentState).messages.length + p.2.length
        ≤ p.1.messages.length)) = some true := by
  refine ⟨(append_only_invariant.1 { messages := ["seed"] } monitorUpdate).1, ?_⟩
  obtain ⟨p, hr⟩ : ∃ p, run monitoringEnv ({} : AgentState) = .ok p := by
    cases hr : run monitoringEnv ({} : AgentState) with
    | ok p => exact ⟨p, rfl⟩
    | error e =>
        have hsome : exceptIsOk (run monitoringEnv ({} : AgentState)) = true := rfl
        rw [hr] at hsome
        exact absurd hsome (by simp [exceptIsOk])
  have hlen := append_only_invariant.2 monitoringEnv {} p.1 p.2 hr
  rw [hr]
  exact congrArg some (decide_eq_true hlen)

end SquareHacks
